import Mathlib

/-!
Verification of the Elasticsearch client wrapper (`app/elasticsearch_client.py`)
and of the SMTP email CLI (`app/send_email.py`) through a shallow embedding.

The embedding models:
* `buildBody` — the query-body resolution of `ElasticsearchClient.query`
  (lines 152-166 of `elasticsearch_client.py`);
* `go` / `runQuery` — the generator body of `query` (lines 168-206): the
  initial `search`, the scroll loop, and the `try/finally` cursor cleanup.
  Python generator semantics are made explicit: the generator body only runs
  while the consumer pulls, so the interpreter is parameterised by the number
  of `next()` calls (`pulls`) the consumer makes before closing the
  generator.  A pull budget of `0` means the generator is never started.
  The external Elasticsearch transport is an oracle (`Backend`): `search`
  and `scroll` may return a response or raise, `clear` reports whether
  `clear_scroll` raises (the exception is swallowed by the source);
* `upload_document` / `uploadLoop` / `upload_documents` — lines 59-108,
  with a trace of the raw `self._client.index` calls and of the documents
  the backend persisted (one per successful call);
* `initClient` — the connection-validation block of `__init__`
  (lines 50-57), including the detail that the inner
  `ConnectionError` raised on a negative ping is itself caught by the
  `except Exception` clause and re-wrapped;
* `mainModel` — the `try/except` exit-code logic of `send_email.main`
  (lines 166-203): `OSError`/`SMTPException` and any other `Exception`
  yield exit code 1, while a `SystemExit` (not an `Exception` in Python)
  would propagate.
-/

/-- JSON-like values: documents, query bodies and backend acknowledgments. -/
inductive Json where
  | null : Json
  | str : String → Json
  | num : Int → Json
  | bool : Bool → Json
  | arr : List Json → Json
  | obj : List (String × Json) → Json

/-- Errors raised by the external transport, identified by their message. -/
abbrev Err := String

/-- One entry of `response["hits"]["hits"]`; `source` models `hit["_source"]`. -/
structure Hit where
  source : Json

/-- The parts of a search/scroll response that `query` reads:
`response.get("_scroll_id")` and `response["hits"]["hits"]`. -/
structure Response where
  scroll_id : Option String
  hits : List Hit

/-- The Elasticsearch transport as seen by `query`.  `scroll` also receives
the index of the scroll call (0-based) so that a stateful server can be
modelled; `clear` returns `true` when `clear_scroll` raises. -/
structure Backend where
  search : Json → Nat → Except Err Response
  scroll : Nat → Option String → Except Err Response
  clear : String → Bool

/-- Lines 152-166 of `elasticsearch_client.py`: build the request body from
the optional structured query and the optional query string. -/
def buildBody (query : Option Json) (query_string : Option String) : Json :=
  match query with
  | some q => Json.obj [("query", q)]
  | none =>
    match query_string with
    | some s =>
      Json.obj [("query", Json.obj [("query_string", Json.obj [("query", Json.str s)])])]
    | none => Json.obj [("query", Json.obj [("match_all", Json.obj [])])]

/-- The explicit `match_all` query body, for comparison with the default. -/
def matchAll : Json := Json.obj [("match_all", Json.obj [])]

/-- How one consumption of the `query` generator ended: normal exhaustion
(`done`), early abandonment by the consumer (`closed`, i.e. the generator
was closed while suspended), or an exception raised into the consumer. -/
inductive Outcome where
  | done : Outcome
  | closed : Outcome
  | error : Err → Outcome
deriving DecidableEq

/-- Observable record of one consumption of the `query` generator:
the documents yielded, how it ended, the scroll id passed to
`clear_scroll` (if the cleanup ran), and whether that cleanup call raised
(the source swallows such an exception). -/
structure RunResult where
  yielded : List Json
  outcome : Outcome
  cleared : Option String
  clearFailed : Bool

/-- Python truthiness of the `scroll_id` variable: `None` and `""` are falsy. -/
def truthy : Option String → Prop
  | none => False
  | some s => s ≠ ""

instance : DecidablePred truthy := fun sid =>
  match sid with
  | none => isFalse id
  | some s => inferInstanceAs (Decidable (s ≠ ""))

/-- Lines 198-206: the `finally` block.  `clear_scroll` is attempted only if
`scroll_id` is truthy; an exception from it is swallowed.  Returns the id
passed to `clear_scroll` (if any) and whether that call raised. -/
def finallyClear (be : Backend) (sid : Option String) : Option String × Bool :=
  match sid with
  | none => (none, false)
  | some s => if s = "" then (none, false) else (some s, be.clear s)

/-- The generator is closed while suspended at a `yield` (consumer stopped
pulling): the `finally` block runs, nothing more is yielded. -/
def closedResult (be : Backend) (sid : Option String) : RunResult :=
  ⟨[], Outcome.closed, (finallyClear be sid).1, (finallyClear be sid).2⟩

/-- The generator body returns normally: the `finally` block runs. -/
def doneResult (be : Backend) (sid : Option String) : RunResult :=
  ⟨[], Outcome.done, (finallyClear be sid).1, (finallyClear be sid).2⟩

/-- A scroll fetch raised inside the `try`: the `finally` block runs with the
current `scroll_id`, then the exception propagates to the consumer. -/
def abortResult (be : Backend) (sid : Option String) (e : Err) : RunResult :=
  ⟨[], Outcome.error e, (finallyClear be sid).1, (finallyClear be sid).2⟩

/-- One `yield hit["_source"]`: the document is delivered to the consumer
(consuming one pull) before the rest of the run. -/
def yieldStep (d : Json) (r : RunResult) : RunResult :=
  ⟨d :: r.yielded, r.outcome, r.cleared, r.clearFailed⟩

/-- Lines 180-206 of `elasticsearch_client.py`, from just after the initial
search: `k` counts the scroll calls made so far, `sid` is the current
`scroll_id`, `pend` the hits of the current page not yet yielded, and
`pageEmpty` records whether the current page (as fetched) was empty — the
`while hits:` condition.  The last argument is the number of pulls the
consumer will still make; each `yield` consumes one pull, and when the
budget reaches zero while the generator is suspended, the generator is
closed and the `finally` block runs. -/
def go (be : Backend) : Nat → Option String → List Hit → Bool → Nat → RunResult
  | _, sid, _, _, 0 => closedResult be sid
  | k, sid, h :: pend, _, Nat.succ pulls => yieldStep h.source (go be k sid pend false pulls)
  | k, sid, [], pageEmpty, Nat.succ pulls =>
    if pageEmpty then doneResult be sid
    else
      match be.scroll k sid with
      | Except.error e => abortResult be sid e
      | Except.ok resp =>
        match resp.hits with
        | [] => doneResult be resp.scroll_id
        | h :: pend => yieldStep h.source (go be (k + 1) resp.scroll_id pend false pulls)

/-- Lines 110-206 of `elasticsearch_client.py`: one full consumption of
`query(index, query, query_string, size)` by a consumer that makes `pulls`
calls to `next()` before closing the generator.  Since `query` is a
generator function, its body — including the initial `search` — runs only
once the first pull happens: with `pulls = 0` no backend call is made.
If the initial search raises, the exception reaches the consumer at the
first pull; the `try` block was never entered, so no cleanup runs. -/
def runQuery (be : Backend) (query : Option Json) (query_string : Option String)
    (size : Nat) (pulls : Nat) : RunResult :=
  match pulls with
  | 0 => ⟨[], Outcome.closed, none, false⟩
  | Nat.succ _ =>
    match be.search (buildBody query query_string) size with
    | Except.error e => ⟨[], Outcome.error e, none, false⟩
    | Except.ok resp => go be 0 resp.scroll_id resp.hits resp.hits.isEmpty pulls

/-- Wrap documents into the response envelope (`_source` field of each hit). -/
def hitsOf (docs : List Json) : List Hit := docs.map Hit.mk

/-- Page `k` of a static dataset paged `size` documents per round trip. -/
def pageList (docs : List Json) (size : Nat) (k : Nat) : List Json :=
  (docs.drop (k * size)).take size

/-- A well-behaved backend over a static dataset: the initial search returns
page 0 (of the requested size) plus a scroll id, the `k`-th scroll call
returns page `k+1`, and `clear_scroll` never raises. -/
def pager (docs : List Json) (size : Nat) (sid : String) : Backend where
  search := fun _ s => Except.ok ⟨some sid, hitsOf (pageList docs s 0)⟩
  scroll := fun k _ => Except.ok ⟨some sid, hitsOf (pageList docs size (k + 1))⟩
  clear := fun _ => false

/-- A backend whose every transport call raises `e`. -/
def allFail (e : Err) : Backend where
  search := fun _ _ => Except.error e
  scroll := fun _ _ => Except.error e
  clear := fun _ => false

/-- A backend whose search succeeds with one document and whose scroll
calls all raise `e`: a mid-stream page-fetch failure. -/
def oneThenFail (d : Json) (sid : String) (e : Err) : Backend where
  search := fun _ _ => Except.ok ⟨some sid, [Hit.mk d]⟩
  scroll := fun _ _ => Except.error e
  clear := fun _ => false

/-- The arguments of one `self._client.index(index=..., id=..., document=...)`
call made by the upload path. -/
structure EsIndexCall where
  idx : String
  docId : Option String
  doc : Json

/-- The indexing transport: the `n`-th call, with its arguments, either
returns the backend acknowledgment or raises. -/
structure IndexBackend where
  index : Nat → EsIndexCall → Except Err Json

/-- Lines 59-81 of `elasticsearch_client.py`: `upload_document` forwards
index, optional id (defaulting to `None`) and document to
`self._client.index` and returns the acknowledgment verbatim. -/
def upload_document (be : IndexBackend) (n : Nat) (index : String) (document : Json)
    (doc_id : Option String := none) : Except Err Json :=
  be.index n ⟨index, doc_id, document⟩

/-- Observable record of one `upload_documents` run: the value returned (or
the exception propagated), the acknowledgments accumulated in the local
`results` list, the raw `index` calls made, and the documents the backend
persisted (one per successful call — a failed call persists nothing). -/
structure UploadRun where
  result : Except Err (List Json)
  acked : List Json
  calls : List EsIndexCall
  persisted : List Json

/-- Lines 104-108 of `elasticsearch_client.py`: the loop of
`upload_documents`.  Each document is uploaded via `upload_document` with
the id omitted; the first failure propagates, discarding the local
`results` list. -/
def uploadLoop (be : IndexBackend) (index : String) : Nat → List Json → UploadRun
  | _, [] => ⟨Except.ok [], [], [], []⟩
  | n, d :: rest =>
    match upload_document be n index d with
    | Except.error e => ⟨Except.error e, [], [⟨index, none, d⟩], []⟩
    | Except.ok ack =>
      let r := uploadLoop be index (n + 1) rest
      ⟨r.result.map (fun l => ack :: l), ack :: r.acked,
        ⟨index, none, d⟩ :: r.calls, d :: r.persisted⟩

/-- What `upload_documents(index, documents)` itself gives its caller: the
full acknowledgment list on success, or the first failure. -/
def upload_documents (be : IndexBackend) (index : String)
    (documents : List Json) : Except Err (List Json) :=
  (uploadLoop be index 0 documents).result

/-- Line 53: the message of the `ConnectionError` raised on a negative ping. -/
def pingFailureMessage (endpoint : String) : String :=
  "Unable to connect to Elasticsearch at " ++ endpoint

/-- Lines 51-53, the body of the `try` block: call `ping()` (which may itself
raise) and raise a `ConnectionError` if it returns `False`. -/
def validateConnection (endpoint : String) (ping : Except Err Bool) : Except Err Unit :=
  match ping with
  | Except.ok b => if b then Except.ok () else Except.error (pingFailureMessage endpoint)
  | Except.error e => Except.error e

/-- The `ConnectionError` raised by `__init__`: its message and, via
`raise ... from e`, the lower-level error it wraps. -/
structure ConnectionFailure where
  message : String
  cause : Option String

/-- Lines 50-57 of `elasticsearch_client.py`: the connection-validation block
of `__init__`.  Any exception escaping the `try` body — including the
`ConnectionError` raised on a negative ping, which the `except Exception`
clause also catches — is re-raised as a `ConnectionError` whose message
names the endpoint and embeds `str(e)`, chained `from e`.  `Except.ok`
models a constructed client; `Except.error` means no instance is returned. -/
def initClient (endpoint : String) (ping : Except Err Bool) : Except ConnectionFailure Unit :=
  match validateConnection endpoint ping with
  | Except.ok _ => Except.ok ()
  | Except.error e =>
    Except.error ⟨"Failed to connect to Elasticsearch at " ++ endpoint ++ ": " ++ e, some e⟩

/-- Classification of Python exceptions as `send_email.main` sees them:
`transport` covers `OSError` and `smtplib.SMTPException`; `unexpected` is
any other `Exception`; `sysExit` models `SystemExit`, which does not derive
from `Exception` and is caught by neither handler. -/
inductive PyError where
  | transport : String → PyError
  | unexpected : String → PyError
  | sysExit : Int → PyError

/-- The body of the `try` block of `main`: `parse_arguments`, then
`create_message`, then `send_email`, each of which may raise. -/
def tryBody (parse create send : Except PyError Unit) : Except PyError Unit := do
  parse
  create
  send

/-- Lines 166-203 of `send_email.py`: `main` returns 0 when the body
succeeds, 1 when it raises `OSError`/`SMTPException` or any other
`Exception`; a `SystemExit` propagates uncaught (modelled as
`Except.error`). -/
def mainModel (parse create send : Except PyError Unit) : Except PyError Int :=
  match tryBody parse create send with
  | Except.ok _ => Except.ok 0
  | Except.error (PyError.transport _) => Except.ok 1
  | Except.error (PyError.unexpected _) => Except.ok 1
  | Except.error (PyError.sysExit c) => Except.error (PyError.sysExit c)

/-- Claim C3: the body-resolution rule of `query`.  A structured query is
used whenever supplied (a simultaneously supplied query string is
ignored); a query string alone is wrapped into a single `query_string`
clause; with neither supplied the submitted body is the match-all query,
so `query` with no arguments consumes exactly like an explicit match-all
query under any backend, page size and pull budget. -/
theorem query_body_resolution :
    (∀ (q : Json) (s : String),
        buildBody (some q) (some s) = buildBody (some q) none
        ∧ buildBody (some q) none = Json.obj [("query", q)])
    ∧ (∀ s : String,
        buildBody none (some s)
          = Json.obj [("query", Json.obj [("query_string", Json.obj [("query", Json.str s)])])])
    ∧ buildBody none none = Json.obj [("query", matchAll)]
    ∧ (∀ (be : Backend) (size pulls : Nat),
        runQuery be none none size pulls = runQuery be (some matchAll) none size pulls) :=
  ⟨fun _ _ => ⟨rfl, rfl⟩, fun _ => rfl, rfl, fun _ _ _ => rfl⟩

/-- Claim C9: calling `query` performs no network I/O at call time.  `query`
is a generator function, so its body — including the initial search —
runs only when the consumer pulls.  With a pull budget of zero the run is
one fixed value for every backend (no backend call can influence it), and
with a backend whose search always raises the failure surfaces exactly at
the first pull. -/
theorem query_lazy_first_pull :
    (∀ (be : Backend) (q : Option Json) (qs : Option String) (size : Nat),
        runQuery be q qs size 0 = ⟨[], Outcome.closed, none, false⟩)
    ∧ (∀ (e : Err) (q : Option Json) (qs : Option String) (size : Nat),
        runQuery (allFail e) q qs size 1 = ⟨[], Outcome.error e, none, false⟩) :=
  ⟨fun _ _ _ _ => rfl, fun _ _ _ _ => rfl⟩

/-- Claim C8: the email-sender CLI exits with code 0 on success and with
code 1 on any transport (`OSError`/`SMTPException`) or unexpected
(`Exception`) error during message construction or sending. -/
theorem send_email_exit_codes :
    (∀ parse create send : Except PyError Unit,
        parse = Except.ok () → create = Except.ok () → send = Except.ok () →
        mainModel parse create send = Except.ok 0)
    ∧ (∀ (parse create send : Except PyError Unit) (m : String),
        parse = Except.ok () →
        (create = Except.error (PyError.transport m)
          ∨ create = Except.error (PyError.unexpected m)) →
        mainModel parse create send = Except.ok 1)
    ∧ (∀ (parse create send : Except PyError Unit) (m : String),
        parse = Except.ok () → create = Except.ok () →
        (send = Except.error (PyError.transport m)
          ∨ send = Except.error (PyError.unexpected m)) →
        mainModel parse create send = Except.ok 1) := by
  refine ⟨?_, ?_, ?_⟩
  · intro parse create send hp hc hs
    subst hp; subst hc; subst hs; rfl
  · intro parse create send m hp hc
    subst hp
    rcases hc with hc | hc <;> subst hc <;> rfl
  · intro parse create send m hp hc hs
    subst hp; subst hc
    rcases hs with hs | hs <;> subst hs <;> rfl

/-- Witness for C8 at concrete inputs: a fully successful run exits 0, and a
run whose send step raises a transport error exits 1. -/
theorem send_email_exit_codes_witness :
    mainModel (Except.ok ()) (Except.ok ()) (Except.ok ()) = Except.ok 0
    ∧ mainModel (Except.ok ()) (Except.ok ())
        (Except.error (PyError.transport "connection refused")) = Except.ok 1 :=
  ⟨send_email_exit_codes.1 _ _ _ rfl rfl rfl,
   send_email_exit_codes.2.2 _ _ _ "connection refused" rfl rfl (Or.inl rfl)⟩

/-- Claim C4: whenever the liveness check raises or returns `False`,
construction fails with a `ConnectionError` whose message contains the
attempted endpoint and which wraps the lower-level error (`from e`), and
no client instance is returned. -/
theorem init_connection_error (endpoint : String) (ping : Except Err Bool)
    (h : ping = Except.ok false ∨ ∃ e, ping = Except.error e) :
    ∃ ce : ConnectionFailure,
      initClient endpoint ping = Except.error ce
      ∧ (∃ pre post, ce.message = pre ++ endpoint ++ post)
      ∧ (∀ e, ping = Except.error e → ce.cause = some e) := by
  rcases h with h | ⟨e, h⟩
  · subst h
    refine ⟨_, rfl, ⟨"Failed to connect to Elasticsearch at ",
      ": " ++ pingFailureMessage endpoint, ?_⟩, ?_⟩
    · show _ ++ endpoint ++ ": " ++ pingFailureMessage endpoint
        = _ ++ endpoint ++ (": " ++ pingFailureMessage endpoint)
      rw [String.append_assoc]
    · intro e he
      exact absurd he (by simp)
  · subst h
    refine ⟨_, rfl, ⟨"Failed to connect to Elasticsearch at ", ": " ++ e, ?_⟩, ?_⟩
    · show _ ++ endpoint ++ ": " ++ e = _ ++ endpoint ++ (": " ++ e)
      rw [String.append_assoc]
    · intro e2 he
      rw [Except.error.injEq] at he
      rw [he]

/-- Witness for C4: with endpoint `https://localhost:9200` and a ping that
returns `False`, construction fails as the claim states. -/
theorem init_connection_error_witness :
    ∃ ce : ConnectionFailure,
      initClient "https://localhost:9200" (Except.ok false) = Except.error ce
      ∧ (∃ pre post, ce.message = pre ++ "https://localhost:9200" ++ post)
      ∧ (∀ e, (Except.ok false : Except Err Bool) = Except.error e → ce.cause = some e) :=
  init_connection_error "https://localhost:9200" (Except.ok false) (Or.inl rfl)

/-- Helper for the pagination proof: from any point of the scroll loop over a
static dataset — `k` scroll calls already made, the hits `pend` of the
current (non-empty) page still to be yielded — a consumer with enough pull
budget receives `pend` followed by every document after page `k`, the run
ends in normal exhaustion, and the cursor is cleared. -/
theorem pager_go (docs : List Json) (size : Nat) (sid : String)
    (hsize : 1 ≤ size) (hsid : sid ≠ "") :
    ∀ (pulls k : Nat) (pend : List Json),
      pend.length + (docs.length - (k + 1) * size) + 1 ≤ pulls →
      go (pager docs size sid) k (some sid) (hitsOf pend) false pulls
        = ⟨pend ++ docs.drop ((k + 1) * size), Outcome.done, some sid, false⟩ := by
  intro pulls
  induction pulls with
  | zero => intro k pend h; omega
  | succ pulls ih =>
    intro k pend h
    match pend with
    | d :: t =>
      show go (pager docs size sid) k (some sid) (Hit.mk d :: hitsOf t) false (pulls + 1) = _
      rw [show (pulls + 1) = Nat.succ pulls from rfl]
      simp only [go]
      rw [ih k t (by simp only [List.length_cons] at h; omega)]
      simp [yieldStep]
    | [] =>
      show go (pager docs size sid) k (some sid) [] false (Nat.succ pulls) = _
      simp only [go, Bool.false_eq_true, if_false]
      have hscroll : (pager docs size sid).scroll k (some sid)
          = Except.ok ⟨some sid, hitsOf (pageList docs size (k + 1))⟩ := rfl
      rw [hscroll]
      have hlen : (pageList docs size (k + 1)).length
          = min size (docs.length - (k + 1) * size) := by
        simp [pageList]
      cases hp : pageList docs size (k + 1) with
      | nil =>
        have hrem : docs.length - (k + 1) * size = 0 := by
          rw [hp] at hlen
          simp only [List.length_nil] at hlen
          omega
        have hdrop : docs.drop ((k + 1) * size) = [] := by
          rw [← List.length_eq_zero, List.length_drop, hrem]
        simp only [hitsOf, List.map_nil, doneResult, finallyClear, hsid, if_neg hsid]
        rw [hdrop]
        rfl
      | cons d1 t1 =>
        show yieldStep (Hit.mk d1).source
            (go (pager docs size sid) (k + 1) (some sid) (hitsOf t1) false pulls) = _
        rw [hp] at hlen
        simp only [List.length_cons] at hlen
        have hbudget : t1.length + (docs.length - (k + 1 + 1) * size) + 1 ≤ pulls := by
          have hsub : docs.length - (k + 1 + 1) * size
              = (docs.length - (k + 1) * size) - size := by
            rw [Nat.succ_mul, Nat.sub_sub]
          rw [hsub]
          simp only [List.length_nil, Nat.zero_add] at h
          omega
        rw [ih (k + 1) t1 hbudget]
        simp only [yieldStep, List.nil_append]
        have hsplit : docs.drop ((k + 1) * size)
            = (d1 :: t1) ++ docs.drop ((k + 1 + 1) * size) := by
          have := List.drop_take_append_drop docs ((k + 1) * size) size
          rw [show (k + 1) * size + size = (k + 1 + 1) * size from (Nat.succ_mul (k + 1) size).symm]
            at this
          rw [← this, ← hp]
          rfl
        rw [hsplit]
        simp [List.cons_append]

/-- Claim C1 (amended): over a static dataset, `query` yields every document
exactly once — no duplicates, no omissions, in dataset order — for every
page size of at least 1, given a consumer that pulls to exhaustion; the
yielded documents therefore do not depend on the page size as long as it
is positive.  (Page size 0 is the exception the counterexample exhibits:
every fetched page is then empty and nothing is yielded.) -/
theorem query_pagination_exhaustive (docs : List Json) (size : Nat) (sid : String)
    (pulls : Nat) (hsize : 1 ≤ size) (hsid : sid ≠ "")
    (hpulls : docs.length + 1 ≤ pulls) :
    runQuery (pager docs size sid) none none size pulls
      = ⟨docs, Outcome.done, some sid, false⟩ := by
  match pulls, hpulls with
  | Nat.succ pulls, hpulls =>
    cases docs with
    | nil =>
      have hnil : hitsOf (pageList [] size 0) = [] := by
        simp [pageList, hitsOf]
      show go (pager [] size sid) 0 (some sid) (hitsOf (pageList [] size 0))
          (hitsOf (pageList [] size 0)).isEmpty (Nat.succ pulls) = _
      rw [hnil]
      simp [go, doneResult, finallyClear, if_neg hsid, pager]
    | cons d ds =>
      obtain ⟨n, rfl⟩ : ∃ n, size = n + 1 := ⟨size - 1, by omega⟩
      have hpage : pageList (d :: ds) (n + 1) 0 = d :: ds.take n := by
        simp [pageList]
      show go (pager (d :: ds) (n + 1) sid) 0 (some sid)
          (hitsOf (pageList (d :: ds) (n + 1) 0))
          (hitsOf (pageList (d :: ds) (n + 1) 0)).isEmpty (Nat.succ pulls) = _
      rw [hpage]
      show go (pager (d :: ds) (n + 1) sid) 0 (some sid) (hitsOf (d :: ds.take n))
          false (Nat.succ pulls) = _
      rw [pager_go (d :: ds) (n + 1) sid (by omega) hsid (Nat.succ pulls) 0 (d :: ds.take n)
        (by simp only [List.length_cons, List.length_take] at hpulls ⊢; omega)]
      have hone : (0 + 1) * (n + 1) = n + 1 := by omega
      rw [hone]
      simp [List.cons_append, List.drop_succ_cons, List.take_append_drop]

/-- Witness for C1 (amended) at a concrete input: three documents, page size
two, pull budget four — every document is yielded exactly once and the
run ends in normal exhaustion with the cursor cleared. -/
theorem query_pagination_exhaustive_witness :
    runQuery (pager [Json.num 1, Json.num 2, Json.num 3] 2 "s") none none 2 4
      = ⟨[Json.num 1, Json.num 2, Json.num 3], Outcome.done, some "s", false⟩ :=
  query_pagination_exhaustive [Json.num 1, Json.num 2, Json.num 3] 2 "s" 4
    (by omega) (by decide) (by decide)

/-- Counterexample to claim C1 as stated: the yielded document set is not the
same for every value of `pageSize`.  On a static one-document dataset,
`pageSize = 0` makes every fetched page empty, so the scan yields nothing
(omitting the matching document), while `pageSize = 1` yields it. -/
theorem query_pageSize_zero_counterexample :
    (runQuery (pager [Json.num 1] 0 "s") none none 0 5).yielded.length = 0
    ∧ (runQuery (pager [Json.num 1] 1 "s") none none 1 5).yielded.length = 1
    ∧ (0 : Nat) ≠ 1 :=
  ⟨rfl, rfl, by decide⟩

/-- Unfolding of `runQuery` at a positive pull budget. -/
theorem runQuery_succ (be : Backend) (q : Option Json) (qs : Option String)
    (size pulls : Nat) :
    runQuery be q qs size (Nat.succ pulls)
      = match be.search (buildBody q qs) size with
        | Except.error e => ⟨[], Outcome.error e, none, false⟩
        | Except.ok resp =>
          go be 0 resp.scroll_id resp.hits resp.hits.isEmpty (Nat.succ pulls) := rfl

/-- Replacing the `clear_scroll` transport does not change which id the
`finally` block passes to it. -/
theorem finallyClear_fst (be : Backend) (c : String → Bool) (sid : Option String) :
    (finallyClear { be with clear := c } sid).1 = (finallyClear be sid).1 := by
  cases sid with
  | none => rfl
  | some s =>
    by_cases hs : s = "" <;> simp [finallyClear, hs]

/-- The `clear_scroll`-independent part of a run: what was yielded, how the
run ended, and which cursor id the cleanup targeted. -/
def coreOf (r : RunResult) : List Json × Outcome × Option String :=
  (r.yielded, r.outcome, r.cleared)

/-- The outcome of a `clear_scroll` call — success or swallowed exception —
influences neither the yielded documents, nor how the run ends, nor which
cursor id the cleanup targets. -/
theorem go_clear_core (be : Backend) (c : String → Bool) :
    ∀ (pulls k : Nat) (sid : Option String) (pend : List Hit) (flag : Bool),
      coreOf (go { be with clear := c } k sid pend flag pulls)
        = coreOf (go be k sid pend flag pulls) := by
  intro pulls
  induction pulls with
  | zero =>
    intro k sid pend flag
    simp only [go, closedResult, coreOf, finallyClear_fst]
  | succ pulls ih =>
    intro k sid pend flag
    cases pend with
    | cons h t =>
      have h3 := ih k sid t false
      simp only [coreOf, Prod.mk.injEq] at h3
      simp only [go, yieldStep, coreOf, Prod.mk.injEq, List.cons.injEq, true_and]
      exact h3
    | nil =>
      cases flag with
      | true =>
        simp only [go, eq_self_iff_true, if_true, doneResult, coreOf, finallyClear_fst]
      | false =>
        simp only [go, Bool.false_eq_true, if_false]
        cases hs : be.scroll k sid with
        | error e =>
          simp only [abortResult, coreOf, finallyClear_fst]
        | ok resp =>
          obtain ⟨rsid, rhits⟩ := resp
          cases rhits with
          | nil =>
            simp only [doneResult, coreOf, finallyClear_fst]
          | cons h t =>
            have h3 := ih (k + 1) rsid t false
            simp only [coreOf, Prod.mk.injEq] at h3
            simp only [yieldStep, coreOf, Prod.mk.injEq, List.cons.injEq, true_and]
            exact h3

/-- As long as the current `scroll_id` is truthy and every successful scroll
response carries a truthy scroll id, every exit path of the loop — budget
exhausted, page empty, fetch failure, or recursion — passes a cursor id
to `clear_scroll`. -/
theorem go_cleared_some (be : Backend)
    (hscroll : ∀ (k : Nat) (s : Option String) (resp : Response),
      be.scroll k s = Except.ok resp → truthy resp.scroll_id) :
    ∀ (pulls k : Nat) (sid : Option String) (pend : List Hit) (flag : Bool),
      truthy sid → ((go be k sid pend flag pulls).cleared).isSome = true := by
  have hfin : ∀ sid : Option String, truthy sid →
      ((finallyClear be sid).1).isSome = true := by
    intro sid hsid
    match sid, hsid with
    | some s, hsid =>
      have hs : s ≠ "" := hsid
      simp [finallyClear, hs]
  intro pulls
  induction pulls with
  | zero =>
    intro k sid pend flag hsid
    simp only [go, closedResult]
    exact hfin sid hsid
  | succ pulls ih =>
    intro k sid pend flag hsid
    cases pend with
    | cons h t =>
      simp only [go, yieldStep]
      exact ih k sid t false hsid
    | nil =>
      cases flag with
      | true =>
        simp only [go, eq_self_iff_true, if_true, doneResult]
        exact hfin sid hsid
      | false =>
        simp only [go, Bool.false_eq_true, if_false]
        cases hs : be.scroll k sid with
        | error e =>
          simp only [abortResult]
          exact hfin sid hsid
        | ok resp =>
          have hsid2 := hscroll k sid resp hs
          obtain ⟨rsid, rhits⟩ := resp
          cases rhits with
          | nil =>
            simp only [doneResult]
            exact hfin rsid hsid2
          | cons h t =>
            simp only [yieldStep]
            exact ih (k + 1) rsid t false hsid2

/-- Claim C2: once the initial search has returned a (truthy) cursor and
every successful scroll response carries a truthy cursor id, every exit
path of the iteration — normal exhaustion, early abandonment at any point,
or a failed page fetch — passes a cursor id to `clear_scroll`; and any
failure of `clear_scroll` itself is swallowed: it changes neither the
yielded documents nor the run's outcome. -/
theorem query_cursor_cleanup (be : Backend) (q : Option Json) (qs : Option String)
    (size pulls : Nat) (resp : Response)
    (hpulls : 1 ≤ pulls)
    (hsearch : be.search (buildBody q qs) size = Except.ok resp)
    (hsid : truthy resp.scroll_id)
    (hscroll : ∀ (k : Nat) (s : Option String) (r2 : Response),
      be.scroll k s = Except.ok r2 → truthy r2.scroll_id) :
    ((runQuery be q qs size pulls).cleared).isSome = true
    ∧ ∀ c : String → Bool,
        (runQuery { be with clear := c } q qs size pulls).yielded
            = (runQuery be q qs size pulls).yielded
        ∧ (runQuery { be with clear := c } q qs size pulls).outcome
            = (runQuery be q qs size pulls).outcome := by
  match pulls, hpulls with
  | Nat.succ pulls, _ =>
    constructor
    · rw [runQuery_succ, hsearch]
      exact go_cleared_some be hscroll (Nat.succ pulls) 0 resp.scroll_id
        resp.hits resp.hits.isEmpty hsid
    · intro c
      rw [runQuery_succ, runQuery_succ, hsearch]
      have hcore := go_clear_core be c (Nat.succ pulls) 0 resp.scroll_id
        resp.hits resp.hits.isEmpty
      exact ⟨congrArg (fun p => p.1) hcore, congrArg (fun p => p.2.1) hcore⟩

/-- Witness for C2 at a concrete input: one document, page size one, a
consumer that pulls to exhaustion — the cursor is released. -/
theorem query_cursor_cleanup_witness :
    ((runQuery (pager [Json.num 0] 1 "s") none none 1 2).cleared).isSome = true :=
  (query_cursor_cleanup (pager [Json.num 0] 1 "s") none none 1 2
      ⟨some "s", hitsOf (pageList [Json.num 0] 1 0)⟩
      (by omega) rfl (by decide)
      (fun k s r2 h => by
        simp only [pager] at h
        cases h
        show truthy (some "s")
        decide)).1

/-- Claim C5: `query` fails when the initial search request fails — the error
surfaces to the consumer (at the first pull) with no cleanup to run, since
no cursor was ever obtained; a failure during a later page fetch aborts
the sequence with that error raised into the consumer at the point of the
next pull, after the cursor cleanup has been attempted.  The third part
exhibits the mid-stream shape concretely: the first pull delivers the
first page's document, the second pull hits the scroll failure, and the
cursor is still released. -/
theorem query_failure_paths :
    (∀ (be : Backend) (q : Option Json) (qs : Option String) (size pulls : Nat) (e : Err),
        1 ≤ pulls → be.search (buildBody q qs) size = Except.error e →
        runQuery be q qs size pulls = ⟨[], Outcome.error e, none, false⟩)
    ∧ (∀ (be : Backend) (q : Option Json) (qs : Option String) (size pulls : Nat)
        (resp : Response) (e : Err),
        be.search (buildBody q qs) size = Except.ok resp →
        truthy resp.scroll_id →
        (∀ (k : Nat) (s : Option String) (r2 : Response),
          be.scroll k s = Except.ok r2 → truthy r2.scroll_id) →
        (runQuery be q qs size pulls).outcome = Outcome.error e →
        ((runQuery be q qs size pulls).cleared).isSome = true)
    ∧ (∀ (d : Json) (sid : String) (e : Err), sid ≠ "" →
        runQuery (oneThenFail d sid e) none none 1 2
          = ⟨[d], Outcome.error e, some sid, false⟩) := by
  refine ⟨?_, ?_, ?_⟩
  · intro be q qs size pulls e hpulls hsearch
    match pulls, hpulls with
    | Nat.succ pulls, _ =>
      rw [runQuery_succ, hsearch]
  · intro be q qs size pulls resp e hsearch hsid hscroll houtcome
    match pulls with
    | 0 => exact absurd houtcome (by simp [runQuery])
    | Nat.succ pulls =>
      rw [runQuery_succ, hsearch]
      exact go_cleared_some be hscroll (Nat.succ pulls) 0 resp.scroll_id
        resp.hits resp.hits.isEmpty hsid
  · intro d sid e hsid
    show yieldStep d (abortResult (oneThenFail d sid e) (some sid) e) = _
    simp only [yieldStep, abortResult, finallyClear, if_neg hsid, oneThenFail]

/-- Witness for C5 at concrete inputs: a backend whose search raises
surfaces the error with no cleanup, and a backend whose scroll raises
yields the first page, then aborts with the error after releasing the
cursor. -/
theorem query_failure_paths_witness :
    runQuery (allFail "x") none none 5 1 = ⟨[], Outcome.error "x", none, false⟩
    ∧ runQuery (oneThenFail (Json.num 7) "s" "boom") none none 1 2
        = ⟨[Json.num 7], Outcome.error "boom", some "s", false⟩ :=
  ⟨query_failure_paths.1 (allFail "x") none none 5 1 "x" (by omega) rfl,
   query_failure_paths.2.2 (Json.num 7) "s" "boom" (by decide)⟩

/-- Generalisation over the call counter of the order-preservation facts of
the upload loop: each acknowledgment in the accumulated `results` list
comes from the upload of the input document at the same position, and the
value returned on success is exactly that list, one entry per document. -/
theorem uploadLoop_acked (be : IndexBackend) (index : String) :
    ∀ (docs : List Json) (n : Nat),
      (uploadLoop be index n docs).acked.length ≤ docs.length
      ∧ (∀ (i : Nat) (ack : Json),
          (uploadLoop be index n docs).acked.get? i = some ack →
          ∃ d, docs.get? i = some d ∧ be.index (n + i) ⟨index, none, d⟩ = Except.ok ack)
      ∧ (∀ l, (uploadLoop be index n docs).result = Except.ok l →
          l = (uploadLoop be index n docs).acked ∧ l.length = docs.length) := by
  intro docs
  induction docs with
  | nil =>
    intro n
    refine ⟨by simp [uploadLoop], ?_, ?_⟩
    · intro i ack h
      simp [uploadLoop] at h
    · intro l h
      simp only [uploadLoop, Except.ok.injEq] at h
      subst h
      exact ⟨rfl, rfl⟩
  | cons d rest ih =>
    intro n
    cases hu : upload_document be n index d with
    | error e =>
      refine ⟨?_, ?_, ?_⟩
      · simp [uploadLoop, hu]
      · intro i ack h
        simp [uploadLoop, hu] at h
      · intro l h
        simp [uploadLoop, hu] at h
    | ok ack =>
      have ih1 := ih (n + 1)
      refine ⟨?_, ?_, ?_⟩
      · simp only [uploadLoop, hu, List.length_cons]
        omega
      · intro i ack2 h
        simp only [uploadLoop, hu] at h
        cases i with
        | zero =>
          simp only [List.get?_cons_zero, Option.some.injEq] at h
          subst h
          refine ⟨d, by simp, ?_⟩
          rw [Nat.add_zero]
          exact hu
        | succ i =>
          simp only [List.get?_cons_succ] at h
          obtain ⟨d2, hget, hidx⟩ := ih1.2.1 i ack2 h
          refine ⟨d2, by simpa using hget, ?_⟩
          have harith : n + (i + 1) = n + 1 + i := by omega
          rw [harith]
          exact hidx
      · intro l h
        simp only [uploadLoop, hu] at h
        cases hr : (uploadLoop be index (n + 1) rest).result with
        | error e =>
          rw [hr] at h
          simp [Except.map] at h
        | ok l2 =>
          rw [hr] at h
          simp only [Except.map, Except.ok.injEq] at h
          subst h
          obtain ⟨hl2, hlen⟩ := ih1.2.2 l2 hr
          constructor
          · simp only [uploadLoop, hu]
            rw [hl2]
          · simp [hlen]

/-- Claim C6: `upload_documents` uploads the documents one at a time,
sequentially, via `upload_document`, and its result preserves input order:
the `i`-th accumulated acknowledgment is the backend's acknowledgment of
the `i`-th call, made with the `i`-th input document (and the id omitted);
on success the returned list is exactly the accumulated acknowledgments,
one per input document. -/
theorem upload_documents_order (be : IndexBackend) (index : String) (docs : List Json) :
    (uploadLoop be index 0 docs).acked.length ≤ docs.length
    ∧ (∀ (i : Nat) (ack : Json),
        (uploadLoop be index 0 docs).acked.get? i = some ack →
        ∃ d, docs.get? i = some d ∧ be.index i ⟨index, none, d⟩ = Except.ok ack)
    ∧ (∀ l, upload_documents be index docs = Except.ok l →
        l = (uploadLoop be index 0 docs).acked ∧ l.length = docs.length) := by
  have h := uploadLoop_acked be index docs 0
  refine ⟨h.1, ?_, h.2.2⟩
  intro i ack hi
  have h2 := h.2.1 i ack hi
  simpa using h2

/-- A backend that acknowledges the `i`-th indexing call with the value `i`. -/
def ackBackend : IndexBackend where
  index := fun i _ => Except.ok (Json.num i)

/-- Witness for C6 at a concrete input: uploading two documents returns the
two acknowledgments, in input order, one per document. -/
theorem upload_documents_order_witness :
    ([Json.num 0, Json.num 1] : List Json)
        = (uploadLoop ackBackend "logs" 0 [Json.str "a", Json.str "b"]).acked
    ∧ ([Json.num 0, Json.num 1] : List Json).length
        = ([Json.str "a", Json.str "b"] : List Json).length :=
  (upload_documents_order ackBackend "logs" [Json.str "a", Json.str "b"]).2.2
    [Json.num 0, Json.num 1] rfl

/-- The documents persisted by the backend during one upload loop are exactly
the input prefix whose uploads were acknowledged. -/
theorem uploadLoop_persisted (be : IndexBackend) (index : String) :
    ∀ (docs : List Json) (n : Nat),
      (uploadLoop be index n docs).persisted
        = docs.take (uploadLoop be index n docs).acked.length := by
  intro docs
  induction docs with
  | nil =>
    intro n
    simp [uploadLoop]
  | cons d rest ih =>
    intro n
    cases hu : upload_document be n index d with
    | error e => simp [uploadLoop, hu]
    | ok ack => simp [uploadLoop, hu, ih (n + 1)]

/-- When the upload loop propagates an error, the error is the failure of
the first failing call: every earlier document was acknowledged, the
failing call is on the document right after the acknowledged prefix, and
no later document was attempted. -/
theorem uploadLoop_error (be : IndexBackend) (index : String) :
    ∀ (docs : List Json) (n : Nat) (e : Err),
      (uploadLoop be index n docs).result = Except.error e →
      (uploadLoop be index n docs).acked.length < docs.length
      ∧ ∃ d, docs.get? (uploadLoop be index n docs).acked.length = some d
          ∧ be.index (n + (uploadLoop be index n docs).acked.length) ⟨index, none, d⟩
              = Except.error e := by
  intro docs
  induction docs with
  | nil =>
    intro n e h
    simp [uploadLoop] at h
  | cons d rest ih =>
    intro n e h
    cases hu : upload_document be n index d with
    | error e2 =>
      simp only [uploadLoop, hu, Except.error.injEq] at h
      subst h
      refine ⟨by simp [uploadLoop, hu], d, ?_, ?_⟩
      · simp [uploadLoop, hu]
      · simp only [uploadLoop, hu, List.length_nil, Nat.add_zero]
        exact hu
    | ok ack =>
      simp only [uploadLoop, hu] at h
      cases hr : (uploadLoop be index (n + 1) rest).result with
      | ok l2 =>
        rw [hr] at h
        simp [Except.map] at h
      | error e2 =>
        rw [hr] at h
        simp only [Except.map, Except.error.injEq] at h
        subst h
        obtain ⟨hlt, d2, hget, hidx⟩ := ih (n + 1) e2 hr
        refine ⟨?_, d2, ?_, ?_⟩
        · simp only [uploadLoop, hu, List.length_cons]
          omega
        · simp only [uploadLoop, hu, List.length_cons, List.get?_cons_succ]
          exact hget
        · simp only [uploadLoop, hu, List.length_cons]
          have harith : n + ((uploadLoop be index (n + 1) rest).acked.length + 1)
              = n + 1 + (uploadLoop be index (n + 1) rest).acked.length := by omega
          rw [harith]
          exact hidx

/-- A backend whose every indexing call raises. -/
def failNow : IndexBackend where
  index := fun _ _ => Except.error "boom"

/-- A backend that acknowledges the first indexing call and raises on every
later one. -/
def failSecond : IndexBackend where
  index := fun i _ => if i = 0 then Except.ok (Json.obj []) else Except.error "boom"

/-- Counterexample to claim C7 as stated: the caller cannot observe how many
documents succeeded by inspecting the returned/partial result list,
because on failure no list is returned — the local `results` list is
discarded when the exception propagates.  Two backends that persist a
different number of documents (0 versus 1) before failing give
`upload_documents` callers the very same observable outcome. -/
theorem upload_partial_count_not_observable :
    upload_documents failNow "logs" [Json.str "a", Json.str "b"]
        = upload_documents failSecond "logs" [Json.str "a", Json.str "b"]
    ∧ (uploadLoop failNow "logs" 0 [Json.str "a", Json.str "b"]).persisted.length = 0
    ∧ (uploadLoop failSecond "logs" 0 [Json.str "a", Json.str "b"]).persisted.length = 1
    ∧ (0 : Nat) ≠ 1 :=
  ⟨rfl, rfl, rfl, by decide⟩

/-- Claim C7 (amended): when a document fails to upload, the operation stops
at that first failing upload and propagates exactly that failure; the
documents uploaded before it remain persisted (no rollback) — they are
precisely the acknowledged input prefix — but the accumulated result list
is discarded by the propagating exception, so the success count is not
recoverable from the call's outcome (see the counterexample). -/
theorem upload_stops_at_first_failure (be : IndexBackend) (index : String)
    (docs : List Json) (e : Err)
    (h : upload_documents be index docs = Except.error e) :
    (uploadLoop be index 0 docs).persisted
        = docs.take (uploadLoop be index 0 docs).acked.length
    ∧ (uploadLoop be index 0 docs).acked.length < docs.length
    ∧ ∃ d, docs.get? (uploadLoop be index 0 docs).acked.length = some d
        ∧ be.index (uploadLoop be index 0 docs).acked.length ⟨index, none, d⟩
            = Except.error e := by
  have hp := uploadLoop_persisted be index docs 0
  have he := uploadLoop_error be index docs 0 e h
  obtain ⟨d, hget, hidx⟩ := he.2
  exact ⟨hp, he.1, d, hget, by simpa using hidx⟩

/-- Witness for C7 (amended) at a concrete input: with a backend that
acknowledges one call and then fails, uploading three documents persists
exactly the first document, and the error propagated is the failure of
the second call. -/
theorem upload_stops_at_first_failure_witness :
    (uploadLoop failSecond "logs" 0 [Json.str "a", Json.str "b", Json.str "c"]).persisted
        = ([Json.str "a", Json.str "b", Json.str "c"] : List Json).take
            (uploadLoop failSecond "logs" 0 [Json.str "a", Json.str "b", Json.str "c"]).acked.length
    ∧ (uploadLoop failSecond "logs" 0 [Json.str "a", Json.str "b", Json.str "c"]).acked.length
        < ([Json.str "a", Json.str "b", Json.str "c"] : List Json).length
    ∧ ∃ d, ([Json.str "a", Json.str "b", Json.str "c"] : List Json).get?
            (uploadLoop failSecond "logs" 0 [Json.str "a", Json.str "b", Json.str "c"]).acked.length
          = some d
        ∧ failSecond.index
            (uploadLoop failSecond "logs" 0 [Json.str "a", Json.str "b", Json.str "c"]).acked.length
            ⟨"logs", none, d⟩
            = Except.error "boom" :=
  upload_stops_at_first_failure failSecond "logs"
    [Json.str "a", Json.str "b", Json.str "c"] "boom" rfl

/-- Every raw indexing call made by the upload loop omits the document id and
targets the given index. -/
theorem uploadLoop_calls (be : IndexBackend) (index : String) :
    ∀ (docs : List Json) (n : Nat) (c : EsIndexCall),
      c ∈ (uploadLoop be index n docs).calls → c.docId = none ∧ c.idx = index := by
  intro docs
  induction docs with
  | nil =>
    intro n c h
    simp [uploadLoop] at h
  | cons d rest ih =>
    intro n c h
    cases hu : upload_document be n index d with
    | error e =>
      simp only [uploadLoop, hu, List.mem_singleton] at h
      subst h
      exact ⟨rfl, rfl⟩
    | ok ack =>
      simp only [uploadLoop, hu, List.mem_cons] at h
      cases h with
      | inl h =>
        subst h
        exact ⟨rfl, rfl⟩
      | inr h =>
        exact ih (n + 1) c h

/-- Claim C10: `upload_documents` never supplies a caller-chosen document
identifier — every raw `self._client.index` call it causes carries
`id = None` (so every batch-uploaded document receives a backend-generated
identifier), while the single-document `upload_document` passes its
explicit id argument through to the backend call. -/
theorem upload_documents_id_omitted :
    (∀ (be : IndexBackend) (index : String) (docs : List Json) (c : EsIndexCall),
        c ∈ (uploadLoop be index 0 docs).calls → c.docId = none ∧ c.idx = index)
    ∧ (∀ (be : IndexBackend) (n : Nat) (index : String) (d : Json) (i : String),
        upload_document be n index d (some i) = be.index n ⟨index, some i, d⟩) :=
  ⟨fun be index docs c h => uploadLoop_calls be index docs 0 c h,
   fun _ _ _ _ _ => rfl⟩

/-- Witness for C10 at a concrete input: the single call made when batch
uploading one document carries no document id and targets the index. -/
theorem upload_documents_id_omitted_witness :
    (⟨"logs", none, Json.str "a"⟩ : EsIndexCall).docId = none
    ∧ (⟨"logs", none, Json.str "a"⟩ : EsIndexCall).idx = "logs" :=
  upload_documents_id_omitted.1 ackBackend "logs" [Json.str "a"]
    ⟨"logs", none, Json.str "a"⟩ (List.mem_singleton_self _)
